import Mathlib

/-!
Shallow embedding of the LoanMath core of `student_loans.py`, a loan and
salary calculator.  Python floats are modelled as real numbers, the Python
float power operator as `Real.rpow` and `math.log` as `Real.log` (both total
in Lean; where the Python functions would raise, the relevant theorems
record the out-of-domain condition explicitly).  Each core function returns
either a numeric value (a Python float) or an error message (a Python str);
this dynamically-typed union is modelled as the tagged type `CalcResult`.
-/

/-- Result of a LoanMath calculation: either a numeric value (the Python
functions return a float) or a human-readable error message (they return a
str).  This is the tagged CalculationResult of the data model. -/
inductive CalcResult where
  | ok (value : ℝ)
  | err (message : String)

/-- Embedding of `check_loan_parameters` (src/student_loans.py lines 5-28):
checks the four loan parameters in order and returns the message of the
first failing check, or `none` when every check passes.  The Python function
falls off the end (returning None) when all checks pass. -/
noncomputable def check_loan_parameters (loan_amount interest_rate_year loan_term : ℝ)
    (loan_term_units : String) : Option String :=
  if loan_amount = 0 then some "Please enter valid loan amount"
  else if interest_rate_year = 0 then some "Please enter valid interest rate"
  else if loan_term = 0 then some "Please enter valid loan term"
  else if loan_term_units ≠ "months" ∧ loan_term_units ≠ "years" then
    some "Please select \x27years\x27 or \x27months\x27 for the loan term"
  else none

/-- Embedding of the `number_of_payments` computation inside
`calculate_monthly_payment` (lines 57-60): `loan_term * 12` when the unit is
"years", `loan_term` when it is "months".  In the Python source the variable
is simply left unassigned for any other unit, but every call site runs
`check_loan_parameters` first, which rejects all other units, so the branch
for other units is unreachable; we fold the "months" case into the `else`. -/
noncomputable def number_of_payments (loan_term : ℝ) (loan_term_units : String) : ℝ :=
  if loan_term_units = "years" then loan_term * 12
  else loan_term

/-- Embedding of the arithmetic of `calculate_monthly_payment`
(lines 55-66), the value computed once the parameter check has passed:
`loan_amount * interest_rate_month / 100 * (1+interest_rate_month/100)**n /
((1+interest_rate_month/100)**n - 1)` with `interest_rate_month =
interest_rate_year / 12` and `n = number_of_payments`. -/
noncomputable def monthly_payment_value (loan_amount interest_rate_year loan_term : ℝ)
    (loan_term_units : String) : ℝ :=
  let interest_rate_month := interest_rate_year / 12
  let n := number_of_payments loan_term loan_term_units
  loan_amount * interest_rate_month / 100 *
    (1 + interest_rate_month / 100) ^ n /
    ((1 + interest_rate_month / 100) ^ n - 1)

/-- Embedding of `calculate_monthly_payment` (lines 38-68): run the
parameter check; on failure return its message (the Python function returns
the str), otherwise return the numeric monthly payment. -/
noncomputable def calculate_monthly_payment (loan_amount interest_rate_year loan_term : ℝ)
    (loan_term_units : String) : CalcResult :=
  match check_loan_parameters loan_amount interest_rate_year loan_term loan_term_units with
  | some msg => .err msg
  | none =>
      .ok (monthly_payment_value loan_amount interest_rate_year loan_term loan_term_units)

/-- The argument handed to the numerator `math.log` call inside
`calculate_time_to_repay` (line 99):
`1 - (interest_rate_month / 100 * loan_amount / (monthly_payment_base +
monthly_payment_additional))`, with `monthly_payment_base` the numeric
result of the inner `calculate_monthly_payment` call.  Python `math.log`
raises ValueError (math domain error) whenever this is not positive. -/
noncomputable def time_to_repay_log_argument (loan_amount interest_rate_year loan_term : ℝ)
    (loan_term_units : String) (monthly_payment_additional : ℝ) : ℝ :=
  let interest_rate_month := interest_rate_year / 12
  let monthly_payment_base :=
    monthly_payment_value loan_amount interest_rate_year loan_term loan_term_units
  1 - (interest_rate_month / 100 * loan_amount /
    (monthly_payment_base + monthly_payment_additional))

/-- Embedding of `calculate_time_to_repay` (lines 71-103): run the parameter
check and on failure return its message; otherwise call
`calculate_monthly_payment` with the same parameters and plug its numeric
result into the closed-form payoff-duration formula.  The inner call runs
the identical parameter check, which already passed, so it always yields the
numeric arm; the `.err` fallback of the inner match is unreachable.  The
Python source applies `math.log` with no exception handling; `Real.log` is
total, so the out-of-domain behaviour is analysed separately. -/
noncomputable def calculate_time_to_repay (loan_amount interest_rate_year loan_term : ℝ)
    (loan_term_units : String) (monthly_payment_additional : ℝ) : CalcResult :=
  match check_loan_parameters loan_amount interest_rate_year loan_term loan_term_units with
  | some msg => .err msg
  | none =>
      let monthly_payment_base :=
        match calculate_monthly_payment loan_amount interest_rate_year loan_term
            loan_term_units with
        | .ok v => v
        | .err _ => 0
      let interest_rate_month := interest_rate_year / 12
      .ok (- Real.log (1 - (interest_rate_month / 100 * loan_amount /
            (monthly_payment_base + monthly_payment_additional))) /
          Real.log (1 + interest_rate_month / 100))

/-- Embedding of `calculate_monthly_takehome` (lines 106-122): error when
the base salary is zero, otherwise
`(salary_base * (1 - effective_tax_rate / 100) - annual_savings) / 12`. -/
noncomputable def calculate_monthly_takehome (salary_base effective_tax_rate annual_savings : ℝ) :
    CalcResult :=
  if salary_base = 0 then .err "Please enter valid salary"
  else .ok ((salary_base * (1 - effective_tax_rate / 100) - annual_savings) / 12)

/-- Embedding of the net-affordability composition performed by
`call_calculate_monthly_takehome` (lines 175-207), with the GUI entry
values abstracted to the numbers the wrapper reads from them.  When the loan
amount is zero the wrapper sets both the base payment and the additional
payment to zero without calling `calculate_monthly_payment`; otherwise it
calls it and reads the additional payment field.  It then branches on the
tags exactly as the Python isinstance checks do: both numeric gives the
difference, a take-home error is reported first, then a loan error. -/
noncomputable def call_calculate_monthly_takehome (salary effective_tax_rate annual_savings
    loan_amount interest_rate_year loan_term : ℝ) (loan_term_units : String)
    (additional_monthly_payment : ℝ) : CalcResult :=
  let monthly_takehome := calculate_monthly_takehome salary effective_tax_rate annual_savings
  let payment_pair : CalcResult × ℝ :=
    if loan_amount = 0 then (.ok 0, 0)
    else (calculate_monthly_payment loan_amount interest_rate_year loan_term loan_term_units,
      additional_monthly_payment)
  match monthly_takehome, payment_pair.1 with
  | .ok takehome, .ok base => .ok (takehome - base - payment_pair.2)
  | .err m, _ => .err m
  | .ok _, .err m => .err m

/-- Second definition for the refinement claim about MonthlyPayment, written
after the words of the specification (section 4.2): `payment = amount *
(r/100) * (1+r/100)^n / ((1+r/100)^n - 1)` with `r = annualRatePercent/12`
and `n = term*12` for Years, `term` for Months (the Years unit is spelled
"years" and Months "months", as at the interface of the code). -/
noncomputable def spec_monthly_payment (amount annualRatePercent term : ℝ)
    (termUnit : String) : ℝ :=
  let r := annualRatePercent / 12
  let n : ℝ := if termUnit = "years" then term * 12 else term
  amount * (r / 100) * (1 + r / 100) ^ n / ((1 + r / 100) ^ n - 1)

/-- C3: `check_loan_parameters` returns an error message exactly when the
loan amount is 0, the annual rate is 0, the term is 0, or the unit is
neither "months" nor "years"; in every other case, negative values
included, it returns no error. -/
theorem check_loan_parameters_error_iff (a r t : ℝ) (u : String) :
    (∃ m, check_loan_parameters a r t u = some m) ↔
      (a = 0 ∨ r = 0 ∨ t = 0 ∨ (u ≠ "months" ∧ u ≠ "years")) := by
  unfold check_loan_parameters
  split_ifs with h1 h2 h3 h4 <;> simp_all

/-- C10: the validator tests its four conditions in the fixed order amount,
rate, term, unit, and returns the field-specific message of the first
condition that fails, so with several invalid parameters at once the
message reported is always the one of the earliest invalid field. -/
theorem check_loan_parameters_first_failure (a r t : ℝ) (u : String) :
    (a = 0 → check_loan_parameters a r t u = some "Please enter valid loan amount") ∧
    (a ≠ 0 → r = 0 → check_loan_parameters a r t u = some "Please enter valid interest rate") ∧
    (a ≠ 0 → r ≠ 0 → t = 0 →
      check_loan_parameters a r t u = some "Please enter valid loan term") ∧
    (a ≠ 0 → r ≠ 0 → t ≠ 0 → u ≠ "months" → u ≠ "years" →
      check_loan_parameters a r t u =
        some "Please select \x27years\x27 or \x27months\x27 for the loan term") := by
  unfold check_loan_parameters
  refine ⟨fun h1 => ?_, fun h1 h2 => ?_, fun h1 h2 h3 => ?_, fun h1 h2 h3 h4 h5 => ?_⟩ <;>
    split_ifs <;> simp_all

/-- Witness for C10: with the amount, rate and term all invalid at once and
an unrecognised unit, the message returned is the loan-amount one. -/
theorem check_loan_parameters_first_failure_witness :
    check_loan_parameters 0 0 0 "days" = some "Please enter valid loan amount" :=
  (check_loan_parameters_first_failure 0 0 0 "days").1 rfl

/-- Helper: the take-home calculation has only one possible error message. -/
theorem calculate_monthly_takehome_err (b tax s : ℝ) (m : String)
    (h : calculate_monthly_takehome b tax s = .err m) : m = "Please enter valid salary" := by
  unfold calculate_monthly_takehome at h
  split_ifs at h
  simp_all

/-- C1: whenever the validator fails, `calculate_monthly_payment` returns
its message as the error result, and whenever it passes, the function
returns exactly the numeric value of the amortization formula stated in the
specification, `amount * (r/100) * (1+r/100)^n / ((1+r/100)^n - 1)` with
`r = annualRatePercent/12` and `n = term*12` for years, `term` for months. -/
theorem calculate_monthly_payment_meets_spec (a r t : ℝ) (u : String) :
    (∀ m, check_loan_parameters a r t u = some m →
      calculate_monthly_payment a r t u = .err m) ∧
    (check_loan_parameters a r t u = none →
      calculate_monthly_payment a r t u = .ok (spec_monthly_payment a r t u)) := by
  constructor
  · intro m hm
    unfold calculate_monthly_payment
    rw [hm]
  · intro h
    unfold calculate_monthly_payment
    rw [h]
    have : monthly_payment_value a r t u = spec_monthly_payment a r t u := by
      unfold monthly_payment_value spec_monthly_payment number_of_payments
      ring_nf
    rw [this]

/-- Witness for C1: a zero amount is rejected with the loan-amount message,
and a fully valid input produces exactly the specified formula value. -/
theorem calculate_monthly_payment_meets_spec_witness :
    calculate_monthly_payment 0 5 10 ("years") = .err "Please enter valid loan amount" ∧
    calculate_monthly_payment 1 1200 1 ("months") = .ok (spec_monthly_payment 1 1200 1 ("months")) :=
  ⟨(calculate_monthly_payment_meets_spec 0 5 10 ("years")).1 _
      (by norm_num [check_loan_parameters]),
    (calculate_monthly_payment_meets_spec 1 1200 1 ("months")).2
      (by norm_num [check_loan_parameters])⟩

/-- C4 counterexample: at the input (100000, 25, 12000) the take-home
calculation returns 5250, not the 5125 stated in the specification example:
(100000 * (1 - 25/100) - 12000) / 12 = 63000 / 12 = 5250. -/
theorem calculate_monthly_takehome_example_is_5250 :
    calculate_monthly_takehome 100000 25 12000 = .ok 5250 ∧ (5125 : ℝ) < 5250 := by
  constructor
  · unfold calculate_monthly_takehome
    rw [if_neg (by norm_num)]
    norm_num
  · norm_num

/-- C4 (amended): the take-home calculation errors exactly when the base
salary is zero, otherwise returns
`(baseSalary * (1 - effectiveTaxRatePercent/100) - annualSavingsTarget)/12`;
in particular at (100000, 25, 12000) it returns 5250 (the example value
5125 in the specification is miscomputed). -/
theorem calculate_monthly_takehome_spec (b tax s : ℝ) :
    ((∃ m, calculate_monthly_takehome b tax s = .err m) ↔ b = 0) ∧
    (b ≠ 0 → calculate_monthly_takehome b tax s = .ok ((b * (1 - tax / 100) - s) / 12)) ∧
    calculate_monthly_takehome 100000 25 12000 = .ok 5250 := by
  refine ⟨?_, ?_, ?_⟩
  · unfold calculate_monthly_takehome
    split_ifs with h <;> simp_all
  · intro hb
    unfold calculate_monthly_takehome
    rw [if_neg hb]
  · unfold calculate_monthly_takehome
    rw [if_neg (by norm_num)]
    norm_num

/-- Witness for C4: the nonzero-salary arm evaluated at (100000, 25, 12000). -/
theorem calculate_monthly_takehome_spec_witness :
    calculate_monthly_takehome 100000 25 12000 =
      .ok ((100000 * (1 - 25 / 100) - 12000) / 12) :=
  (calculate_monthly_takehome_spec 100000 25 12000).2.1 (by norm_num)

/-- C9: if the inner `calculate_monthly_payment` call made with the same
parameters returns an error message, then `calculate_time_to_repay` returns
that same message unchanged, performing no arithmetic on it. -/
theorem calculate_time_to_repay_propagates_error (a r t : ℝ) (u : String) (e : ℝ) (m : String)
    (h : calculate_monthly_payment a r t u = .err m) :
    calculate_time_to_repay a r t u e = .err m := by
  unfold calculate_monthly_payment at h
  unfold calculate_time_to_repay
  cases hc : check_loan_parameters a r t u with
  | none => rw [hc] at h; simp at h
  | some msg => rw [hc] at h; exact h

/-- Witness for C9: with a zero loan amount the monthly-payment error is
returned unchanged by the time-to-repay calculation. -/
theorem calculate_time_to_repay_propagates_error_witness :
    calculate_time_to_repay 0 5 10 ("years") 7 = .err "Please enter valid loan amount" :=
  calculate_time_to_repay_propagates_error 0 5 10 ("years") 7 _
    (by norm_num [calculate_monthly_payment, check_loan_parameters])

/-- C5: in the net-affordability composition a zero loan amount makes both
the base payment and the additional payment zero, regardless of the
additional-payment field, the rate, the term and the unit, so the result is
the take-home value minus 0 minus 0 and the only possible error is the
salary one (never the loan-amount message of the validator); with a nonzero
loan amount and both upstream results numeric, the result is takehome -
basePayment - additionalPayment. -/
theorem call_calculate_monthly_takehome_spec (s tax sv la ir lt : ℝ) (u : String) (e : ℝ) :
    (la = 0 →
      call_calculate_monthly_takehome s tax sv la ir lt u e =
        (match calculate_monthly_takehome s tax sv with
          | .ok takehome => .ok (takehome - 0 - 0)
          | .err m => .err m)) ∧
    (la = 0 → ∀ m, call_calculate_monthly_takehome s tax sv la ir lt u e = .err m →
      m = "Please enter valid salary") ∧
    (la ≠ 0 → ∀ takehome base, calculate_monthly_takehome s tax sv = .ok takehome →
      calculate_monthly_payment la ir lt u = .ok base →
      call_calculate_monthly_takehome s tax sv la ir lt u e = .ok (takehome - base - e)) := by
  refine ⟨?_, ?_, ?_⟩
  · intro h
    cases hm : calculate_monthly_takehome s tax sv <;>
      simp [call_calculate_monthly_takehome, hm, if_pos h]
  · intro h m hm
    cases hth : calculate_monthly_takehome s tax sv with
    | ok v => simp [call_calculate_monthly_takehome, hth, if_pos h] at hm
    | err m2 =>
        simp [call_calculate_monthly_takehome, hth, if_pos h] at hm
        subst hm
        exact calculate_monthly_takehome_err s tax sv _ hth
  · intro h takehome base hth hbp
    simp [call_calculate_monthly_takehome, hth, hbp, if_neg h]

/-- Witness for C5: a zero loan amount with a large value left in the
additional-payment field still yields takehome - 0 - 0. -/
theorem call_calculate_monthly_takehome_spec_witness :
    call_calculate_monthly_takehome 100000 25 12000 0 5 10 ("years") 999 =
      .ok (5250 - 0 - 0) := by
  have h := (call_calculate_monthly_takehome_spec 100000 25 12000 0 5 10 ("years") 999).1 rfl
  rw [h]
  norm_num [calculate_monthly_takehome]

/-- Helper: the validator passes on any input whose four parameters are
nonzero with a recognised unit. -/
theorem check_loan_parameters_none (a r t : ℝ) (u : String)
    (ha : a ≠ 0) (hr : r ≠ 0) (ht : t ≠ 0) (hu : u = "months" ∨ u = "years") :
    check_loan_parameters a r t u = none := by
  unfold check_loan_parameters
  rcases hu with hu | hu <;> subst hu <;> split_ifs <;> simp_all

/-- Helper: the payment count is positive whenever the term is. -/
theorem number_of_payments_pos (t : ℝ) (u : String) (ht : 0 < t) :
    0 < number_of_payments t u := by
  unfold number_of_payments
  split_ifs <;> nlinarith

/-- Helper: the monthly-payment value, rewritten with the monthly fractional
rate factored to the front. -/
theorem monthly_payment_value_formula (a r t : ℝ) (u : String) :
    monthly_payment_value a r t u =
      r / 12 / 100 * a * (1 + r / 12 / 100) ^ number_of_payments t u /
        ((1 + r / 12 / 100) ^ number_of_payments t u - 1) := by
  unfold monthly_payment_value
  ring_nf

/-- Helper: the compounding factor over the whole term exceeds 1 for a
positive rate and a positive term. -/
theorem one_lt_compounding (r t : ℝ) (u : String) (hr : 0 < r) (ht : 0 < t) :
    1 < (1 + r / 12 / 100) ^ number_of_payments t u := by
  have hx : (0 : ℝ) < 1 + r / 12 / 100 := by positivity
  exact (Real.one_lt_rpow_iff_of_pos hx).mpr
    (Or.inl ⟨by nlinarith, number_of_payments_pos t u ht⟩)

/-- Helper: the monthly payment exceeds the monthly interest on the full
principal, by exactly the principal share of the first payment. -/
theorem monthly_payment_value_gt_interest (a r t : ℝ) (u : String)
    (ha : 0 < a) (hr : 0 < r) (ht : 0 < t) :
    r / 12 / 100 * a < monthly_payment_value a r t u := by
  have hX := one_lt_compounding r t u hr ht
  set X := (1 + r / 12 / 100) ^ number_of_payments t u with hXdef
  have hq : (0 : ℝ) < r / 12 / 100 * a := by positivity
  have hX1 : X - 1 ≠ 0 := ne_of_gt (by linarith)
  have hkey : monthly_payment_value a r t u - r / 12 / 100 * a =
      r / 12 / 100 * a / (X - 1) := by
    rw [monthly_payment_value_formula, ← hXdef, eq_div_iff hX1, sub_mul,
      div_mul_cancel₀ _ hX1]
    ring
  have hpos : (0 : ℝ) < r / 12 / 100 * a / (X - 1) := by
    apply div_pos hq
    linarith
  linarith

/-- Helper: the monthly payment is positive for positive parameters. -/
theorem monthly_payment_value_pos (a r t : ℝ) (u : String)
    (ha : 0 < a) (hr : 0 < r) (ht : 0 < t) :
    0 < monthly_payment_value a r t u := by
  have h := monthly_payment_value_gt_interest a r t u ha hr ht
  have : (0 : ℝ) < r / 12 / 100 * a := by positivity
  linarith

/-- Helper: once the validator has passed, `calculate_time_to_repay`
returns the ok arm carrying the closed-form payoff count built from the
numeric monthly payment. -/
theorem calculate_time_to_repay_eq (a r t : ℝ) (u : String) (e : ℝ)
    (h : check_loan_parameters a r t u = none) :
    calculate_time_to_repay a r t u e =
      .ok (- Real.log (1 - r / 12 / 100 * a / (monthly_payment_value a r t u + e)) /
        Real.log (1 + r / 12 / 100)) := by
  unfold calculate_time_to_repay calculate_monthly_payment
  rw [h]

/-- C8: with zero extra payment and positive parameters, the payoff-duration
formula reproduces the number of payments of the original term exactly
(-ln((1+i)^(-n))/ln(1+i) = n), which in particular is within any floating
tolerance of the term expressed as a payment count. -/
theorem time_to_repay_round_trip (a r t : ℝ) (u : String)
    (ha : 0 < a) (hr : 0 < r) (ht : 0 < t) (hu : u = "months" ∨ u = "years") :
    calculate_time_to_repay a r t u 0 = .ok (number_of_payments t u) := by
  rw [calculate_time_to_repay_eq a r t u 0
    (check_loan_parameters_none a r t u (ne_of_gt ha) (ne_of_gt hr) (ne_of_gt ht) hu)]
  simp only [CalcResult.ok.injEq]
  have hx : (0 : ℝ) < 1 + r / 12 / 100 := by positivity
  have hx1 : (1 : ℝ) < 1 + r / 12 / 100 := by nlinarith
  have hX := one_lt_compounding r t u hr ht
  set X := (1 + r / 12 / 100) ^ number_of_payments t u with hXdef
  have hq : (0 : ℝ) < r / 12 / 100 * a := by positivity
  have harg : 1 - r / 12 / 100 * a / (monthly_payment_value a r t u + 0) = X⁻¹ := by
    rw [monthly_payment_value_formula, ← hXdef]
    have hX0 : (0 : ℝ) < X := by linarith
    have hX1 : X - 1 ≠ 0 := by linarith
    field_simp
    ring
  rw [harg, Real.log_inv, hXdef, Real.log_rpow hx, neg_neg, mul_div_assoc,
    div_self (ne_of_gt (Real.log_pos hx1)), mul_one]

/-- Witness for C8: the one-month loan at 1200 percent annual rate repays in
exactly its one scheduled payment when no extra payment is made. -/
theorem time_to_repay_round_trip_witness :
    calculate_time_to_repay 100 1200 1 ("months") 0 = .ok (number_of_payments 1 ("months")) :=
  time_to_repay_round_trip 100 1200 1 ("months") (by norm_num) (by norm_num) (by norm_num)
    (Or.inl rfl)

/-- C6: for positive amount, rate and term and a recognised unit the monthly
payment is a (finite real) number and it is positive, and expressing the
term in years gives exactly the same result as expressing it as twelve
times as many months. -/
theorem monthly_payment_positive_and_units (a r t : ℝ) (ha : 0 < a) (hr : 0 < r) (ht : 0 < t) :
    (∀ u, u = "months" ∨ u = "years" →
      calculate_monthly_payment a r t u = .ok (monthly_payment_value a r t u) ∧
      0 < monthly_payment_value a r t u) ∧
    calculate_monthly_payment a r t ("years") = calculate_monthly_payment a r (t * 12) ("months") := by
  constructor
  · intro u hu
    constructor
    · unfold calculate_monthly_payment
      rw [check_loan_parameters_none a r t u (ne_of_gt ha) (ne_of_gt hr) (ne_of_gt ht) hu]
    · exact monthly_payment_value_pos a r t u ha hr ht
  · have h12 : (0 : ℝ) < t * 12 := by linarith
    unfold calculate_monthly_payment
    rw [check_loan_parameters_none a r t ("years") (ne_of_gt ha) (ne_of_gt hr) (ne_of_gt ht)
        (Or.inr rfl),
      check_loan_parameters_none a r (t * 12) ("months") (ne_of_gt ha) (ne_of_gt hr)
        (ne_of_gt h12) (Or.inl rfl)]
    unfold monthly_payment_value
    rw [show number_of_payments t ("years") = t * 12 by
        unfold number_of_payments; rw [if_pos rfl],
      show number_of_payments (t * 12) ("months") = t * 12 by
        unfold number_of_payments; rw [if_neg (by decide)]]

/-- Witness for C6: positivity and exact unit conversion at the concrete
loan (1, 12, 1 year). -/
theorem monthly_payment_positive_and_units_witness :
    0 < monthly_payment_value 1 12 1 ("years") ∧
    calculate_monthly_payment 1 12 1 ("years") = calculate_monthly_payment 1 12 (1 * 12) ("months") :=
  ⟨((monthly_payment_positive_and_units 1 12 1 (by norm_num) (by norm_num) (by norm_num)).1
      ("years") (Or.inr rfl)).2,
    (monthly_payment_positive_and_units 1 12 1 (by norm_num) (by norm_num) (by norm_num)).2⟩

/-- Helper: the one-month loan of 100 at 1200 percent annual rate (100
percent per month) has a monthly payment of exactly 200. -/
theorem monthly_payment_value_at_example :
    monthly_payment_value 100 1200 1 ("months") = 200 := by
  unfold monthly_payment_value
  rw [show number_of_payments 1 ("months") = 1 by
    unfold number_of_payments; rw [if_neg (by decide)]]
  simp only [Real.rpow_one]
  norm_num

/-- Helper: closed form of the time-to-repay result on the example loan
(100, 1200, 1, months), for an arbitrary additional monthly payment. -/
theorem calculate_time_to_repay_at_example (e : ℝ) :
    calculate_time_to_repay 100 1200 1 ("months") e =
      .ok (- Real.log (1 - 100 / (200 + e)) / Real.log 2) := by
  rw [calculate_time_to_repay_eq 100 1200 1 ("months") e (by norm_num [check_loan_parameters])]
  rw [monthly_payment_value_at_example]
  simp only [CalcResult.ok.injEq]
  norm_num

/-- C2: a concrete input that passes the validator yet drives the argument
of the numerator logarithm to 0, outside (0,1): loan 100 at 1200 percent
annual rate for 1 month with additional payment -100.  The embedded
calculation still produces the ok arm (applying the total `Real.log` to 0),
not an error result: in the Python source the `math.log` call at line 99 is
wrapped in no exception handler, so at this input it raises an uncaught
ValueError (math domain error) instead of returning the error arm the
specification requires. -/
theorem time_to_repay_domain_failure_not_reported :
    check_loan_parameters 100 1200 1 ("months") = none ∧
    time_to_repay_log_argument 100 1200 1 ("months") (-100) = 0 ∧
    calculate_time_to_repay 100 1200 1 ("months") (-100) = .ok 0 := by
  refine ⟨by norm_num [check_loan_parameters], ?_, ?_⟩
  · unfold time_to_repay_log_argument
    rw [monthly_payment_value_at_example]
    norm_num
  · rw [calculate_time_to_repay_at_example (-100)]
    simp only [CalcResult.ok.injEq]
    norm_num [Real.log_zero]

/-- C7 counterexample: on the valid loan (100, 1200, 1, months) the extra
payments e1 = -250 and e2 = 0 both yield numeric payment counts, e1 < e2,
yet the count for e2 (namely 1) is strictly greater than the count for e1
(namely -log 3 / log 2, which is negative), so increasing the extra payment
does not strictly decrease the returned payment count when negative extras
are admitted. -/
theorem time_to_repay_not_monotone_for_negative_extra :
    calculate_time_to_repay 100 1200 1 ("months") (-250) =
      .ok (- (Real.log 3 / Real.log 2)) ∧
    calculate_time_to_repay 100 1200 1 ("months") 0 = .ok 1 ∧
    - (Real.log 3 / Real.log 2) < 1 := by
  refine ⟨?_, ?_, ?_⟩
  · rw [calculate_time_to_repay_at_example (-250)]
    simp only [CalcResult.ok.injEq]
    norm_num [neg_div]
  · rw [calculate_time_to_repay_at_example 0]
    simp only [CalcResult.ok.injEq]
    have h : (1 : ℝ) - 100 / (200 + 0) = 2⁻¹ := by norm_num
    rw [h, Real.log_inv, neg_neg, div_self (ne_of_gt (Real.log_pos (by norm_num)))]
  · have h3 : 0 < Real.log 3 := Real.log_pos (by norm_num)
    have h2 : 0 < Real.log 2 := Real.log_pos (by norm_num)
    have : 0 < Real.log 3 / Real.log 2 := div_pos h3 h2
    linarith

/-- C7 (amended): on a loan with positive amount, rate and term, a
recognised unit, and non-negative extra payments (the data model declares
extraMonthlyPayment a non-negative currency), increasing the extra monthly
payment strictly decreases the payment count returned by the
time-to-repay calculation. -/
theorem time_to_repay_strict_decrease (a r t : ℝ) (u : String) (e1 e2 : ℝ)
    (ha : 0 < a) (hr : 0 < r) (ht : 0 < t) (hu : u = "months" ∨ u = "years")
    (he1 : 0 ≤ e1) (h12 : e1 < e2) (n1 n2 : ℝ)
    (h1 : calculate_time_to_repay a r t u e1 = .ok n1)
    (h2 : calculate_time_to_repay a r t u e2 = .ok n2) :
    n2 < n1 := by
  have hchk := check_loan_parameters_none a r t u (ne_of_gt ha) (ne_of_gt hr) (ne_of_gt ht) hu
  rw [calculate_time_to_repay_eq a r t u e1 hchk] at h1
  rw [calculate_time_to_repay_eq a r t u e2 hchk] at h2
  simp only [CalcResult.ok.injEq] at h1 h2
  subst h1
  subst h2
  have hqpos : (0 : ℝ) < r / 12 / 100 * a := by positivity
  have hqB : r / 12 / 100 * a < monthly_payment_value a r t u :=
    monthly_payment_value_gt_interest a r t u ha hr ht
  have hP1 : 0 < monthly_payment_value a r t u + e1 := by linarith
  have hP2 : monthly_payment_value a r t u + e1 < monthly_payment_value a r t u + e2 := by
    linarith
  have hqP1 : r / 12 / 100 * a < monthly_payment_value a r t u + e1 := by linarith
  have harg1pos : 0 < 1 - r / 12 / 100 * a / (monthly_payment_value a r t u + e1) := by
    have := (div_lt_one hP1).mpr hqP1
    linarith
  have hlt : r / 12 / 100 * a / (monthly_payment_value a r t u + e2) <
      r / 12 / 100 * a / (monthly_payment_value a r t u + e1) :=
    div_lt_div_of_pos_left hqpos hP1 hP2
  have hargs : 1 - r / 12 / 100 * a / (monthly_payment_value a r t u + e1) <
      1 - r / 12 / 100 * a / (monthly_payment_value a r t u + e2) := by linarith
  have hlog := Real.log_lt_log harg1pos hargs
  have hs : (0 : ℝ) < r / 12 / 100 := by positivity
  have hx1 : (1 : ℝ) < 1 + r / 12 / 100 := by linarith
  have hlx : 0 < Real.log (1 + r / 12 / 100) := Real.log_pos hx1
  have hneg : - Real.log (1 - r / 12 / 100 * a / (monthly_payment_value a r t u + e2)) <
      - Real.log (1 - r / 12 / 100 * a / (monthly_payment_value a r t u + e1)) := by
    linarith
  exact (div_lt_div_iff_of_pos_right hlx).mpr hneg

/-- Witness for C7 (amended): on the example loan, raising the extra
payment from 0 to 100 strictly lowers the payment count. -/
theorem time_to_repay_strict_decrease_witness :
    calculate_time_to_repay 100 1200 1 ("months") 0 =
      .ok (- Real.log (1 - 100 / (200 + 0)) / Real.log 2) ∧
    calculate_time_to_repay 100 1200 1 ("months") 100 =
      .ok (- Real.log (1 - 100 / (200 + 100)) / Real.log 2) ∧
    - Real.log (1 - 100 / (200 + 100)) / Real.log 2 <
      - Real.log (1 - 100 / (200 + 0)) / Real.log 2 :=
  ⟨calculate_time_to_repay_at_example 0, calculate_time_to_repay_at_example 100,
    time_to_repay_strict_decrease 100 1200 1 ("months") 0 100 (by norm_num) (by norm_num)
      (by norm_num) (Or.inl rfl) le_rfl (by norm_num) _ _
      (calculate_time_to_repay_at_example 0) (calculate_time_to_repay_at_example 100)⟩
